import Mathlib

/-!
Shallow embedding of the two Flask applications in this repository:
variant A is chapter-04-working-with-docker/02-python-flask-app/app.py
and variant B is templates/dockerfiles/python/app.py.  Each app is a
total function from a process environment and an HTTP request to a
response.  The process environment models `os.environ`: a partial map
from variable names to values, so `os.getenv` becomes a lookup with a
default.  Variant B's `sys.version` is an arbitrary runtime string and
is therefore a parameter of that variant.
-/

/-- A process environment: `os.environ` as a partial map from variable
names to values. -/
abbrev Env := String → Option String

/-- `os.getenv(name, dflt)`: the value of `name` in the environment, or
`dflt` when the variable is unset. -/
def getenv (env : Env) (name dflt : String) : String :=
  (env name).getD dflt

/-- JSON values, as produced by Flask's `jsonify`.  The handlers in this
repository only ever build objects whose values are strings, but the
type admits other shapes so that saying so is meaningful. -/
inductive Json where
  | str (s : String) : Json
  | num (n : Int) : Json
  | obj (fields : List (String × Json)) : Json

/-- Lookup of a key in an ordered field list (first match wins, matching
Python dict semantics where keys are unique anyway). -/
def lookupField : List (String × Json) → String → Option Json
  | [], _ => none
  | (k, v) :: rest, key => if k = key then some v else lookupField rest key

/-- Lookup of a key in a JSON object; `none` on non-objects. -/
def Json.lookup : Json → String → Option Json
  | .obj fields, key => lookupField fields key
  | _, _ => none

/-- The ordered key list of a JSON object (Python dicts preserve
insertion order, and `jsonify` serializes in that order). -/
def Json.keys : Json → List String
  | .obj fields => fields.map Prod.fst
  | _ => []

/-- `true` when the value is an object all of whose values are JSON
strings. -/
def Json.allValuesStr : Json → Bool
  | .obj fields => fields.all (fun p => match p.2 with | .str _ => true | _ => false)
  | _ => false

/-- A response body: a JSON document from `jsonify`, or one of Flask's
framework-default error pages. -/
inductive Body where
  | json (j : Json) : Body
  | notFound : Body
  | methodNotAllowed : Body

/-- An HTTP response: status code plus body. -/
structure Response where
  status : Nat
  body : Body

/-- An incoming HTTP request.  The handlers in this repository never
inspect anything but the method and path; the remaining components are
carried so that independence from them can be stated. -/
structure Request where
  method : String
  path : String
  query : String
  headers : List (String × String)
  body : String

/-- The field named `key` of a response's JSON body, when the body is a
JSON object containing it. -/
def Response.jsonField (r : Response) (key : String) : Option Json :=
  match r.body with
  | Body.json j => j.lookup key
  | _ => none

/-- The arguments of the `app.run(...)` call in a variant's
`__main__` block.  `debug` is the argument actually passed: `some b`
when the source writes `debug=b`, `none` when the source omits it and
Flask's default applies. -/
structure RunConfig where
  host : String
  port : Nat
  debug : Option Bool
deriving DecidableEq

namespace VariantA

/-- The `hello` handler of variant A: the body built by its `jsonify`
call, from the environment at the time of the call. -/
def hello (env : Env) : Json :=
  Json.obj [
    ("message", Json.str "Hello from Docker!"),
    ("environment", Json.str (getenv env "ENVIRONMENT" "development")),
    ("version", Json.str (getenv env "APP_VERSION" "1.0.0"))
  ]

/-- The `health` handler of variant A: `jsonify` body together with the
explicit 200 status of its return tuple. -/
def health : Json × Nat :=
  (Json.obj [("status", Json.str "healthy")], 200)

/-- Variant A's routing: `@app.route` registers `/` and `/health` for
GET; any other path gets Flask's default 404, a known path with a
different method Flask's default 405.  `jsonify` responses carry the
default 200 status. -/
def app (env : Env) (req : Request) : Response :=
  if req.path = "/" then
    if req.method = "GET" then ⟨200, Body.json (hello env)⟩
    else ⟨405, Body.methodNotAllowed⟩
  else if req.path = "/health" then
    if req.method = "GET" then ⟨health.2, Body.json health.1⟩
    else ⟨405, Body.methodNotAllowed⟩
  else ⟨404, Body.notFound⟩

/-- Variant A's `__main__` block:
`app.run(host='0.0.0.0', port=5000, debug=False)`.  The environment is
a parameter only to express that no part of the configuration reads
it. -/
def runConfig (_env : Env) : RunConfig :=
  ⟨"0.0.0.0", 5000, some false⟩

end VariantA

namespace VariantB

/-- The `index` handler of variant B: the body built by its `jsonify`
call.  `sysVersion` is the interpreter's `sys.version` string. -/
def index (sysVersion : String) (env : Env) : Json :=
  Json.obj [
    ("message", Json.str "Python Docker Template"),
    ("python_version", Json.str sysVersion),
    ("environment", Json.str (getenv env "ENVIRONMENT" "development"))
  ]

/-- The `health` handler of variant B, identical to variant A's. -/
def health : Json × Nat :=
  (Json.obj [("status", Json.str "healthy")], 200)

/-- Variant B's routing, mirroring variant A with the `index` handler
on `/`. -/
def app (sysVersion : String) (env : Env) (req : Request) : Response :=
  if req.path = "/" then
    if req.method = "GET" then ⟨200, Body.json (index sysVersion env)⟩
    else ⟨405, Body.methodNotAllowed⟩
  else if req.path = "/health" then
    if req.method = "GET" then ⟨health.2, Body.json health.1⟩
    else ⟨405, Body.methodNotAllowed⟩
  else ⟨404, Body.notFound⟩

/-- Variant B's `__main__` block: `app.run(host='0.0.0.0', port=8000)`
with no `debug` argument passed. -/
def runConfig (_env : Env) : RunConfig :=
  ⟨"0.0.0.0", 8000, none⟩

end VariantB

/-- Processing two requests in sequence, each against the environment
in effect when it is handled: models two `GET` requests with a possible
change of environment in between. -/
def handleTwo (appF : Env → Request → Response) (e1 e2 : Env)
    (r1 r2 : Request) : Response × Response :=
  (appF e1 r1, appF e2 r2)

/-- A concrete empty environment, used in witnesses. -/
def envEmpty : Env := fun _ => none

/-- A concrete environment with only ENVIRONMENT set to staging. -/
def envStaging : Env := fun n => if n = "ENVIRONMENT" then some "staging" else none

/-- A concrete environment with only APP_VERSION set to 2.3.1. -/
def envVersioned : Env := fun n => if n = "APP_VERSION" then some "2.3.1" else none

/-- A concrete GET request to the root path. -/
def reqRoot : Request :=
  ⟨"GET", "/", "", [], ""⟩

/-- A concrete GET request to the health path, with a query string, a
header and a body present. -/
def reqHealth : Request :=
  ⟨"GET", "/health", "a=1", [("X-Extra", "yes")], "ignored"⟩

/-- C1: every GET request whose path is the health path gets, in both
variants, status 200 with body exactly the JSON object mapping "status"
to "healthy", for every environment, interpreter version, query string,
header list and request body; the handler is total and checks no
dependencies. -/
theorem c1_health_static (env : Env) (v : String) (req : Request)
    (hm : req.method = "GET") (hp : req.path = "/health") :
    VariantA.app env req = ⟨200, Body.json (Json.obj [("status", Json.str "healthy")])⟩ ∧
    VariantB.app v env req = ⟨200, Body.json (Json.obj [("status", Json.str "healthy")])⟩ := by
  constructor <;>
    simp [VariantA.app, VariantB.app, VariantA.health, VariantB.health, hm, hp]

/-- Witness for C1 at a concrete request carrying a query string, a
header and a body. -/
theorem c1_health_static_witness :
    VariantA.app envEmpty reqHealth = ⟨200, Body.json (Json.obj [("status", Json.str "healthy")])⟩ ∧
    VariantB.app "3.11.9" envEmpty reqHealth = ⟨200, Body.json (Json.obj [("status", Json.str "healthy")])⟩ :=
  c1_health_static envEmpty "3.11.9" reqHealth rfl rfl

/-- C2: with neither ENVIRONMENT nor APP_VERSION set, a GET request to
the root path gets from variant A status 200 and exactly the JSON object
with message "Hello from Docker!", environment "development" and version
"1.0.0". -/
theorem c2_rootA_defaults (env : Env) (req : Request)
    (he : env "ENVIRONMENT" = none) (hv : env "APP_VERSION" = none)
    (hm : req.method = "GET") (hp : req.path = "/") :
    VariantA.app env req =
      ⟨200, Body.json (Json.obj [
        ("message", Json.str "Hello from Docker!"),
        ("environment", Json.str "development"),
        ("version", Json.str "1.0.0")])⟩ := by
  simp [VariantA.app, VariantA.hello, getenv, he, hv, hm, hp]

/-- Witness for C2 on the empty environment. -/
theorem c2_rootA_defaults_witness :
    VariantA.app envEmpty reqRoot =
      ⟨200, Body.json (Json.obj [
        ("message", Json.str "Hello from Docker!"),
        ("environment", Json.str "development"),
        ("version", Json.str "1.0.0")])⟩ :=
  c2_rootA_defaults envEmpty reqRoot rfl rfl rfl rfl

/-- C3: with ENVIRONMENT unset, a GET request to the root path gets
from variant B status 200 and exactly the JSON object with message
"Python Docker Template", python_version the interpreter's runtime
version string and environment "development". -/
theorem c3_rootB_defaults (env : Env) (v : String) (req : Request)
    (he : env "ENVIRONMENT" = none)
    (hm : req.method = "GET") (hp : req.path = "/") :
    VariantB.app v env req =
      ⟨200, Body.json (Json.obj [
        ("message", Json.str "Python Docker Template"),
        ("python_version", Json.str v),
        ("environment", Json.str "development")])⟩ := by
  simp [VariantB.app, VariantB.index, getenv, he, hm, hp]

/-- Witness for C3 on the empty environment with a concrete runtime
version string. -/
theorem c3_rootB_defaults_witness :
    VariantB.app "3.11.9 (main)" envEmpty reqRoot =
      ⟨200, Body.json (Json.obj [
        ("message", Json.str "Python Docker Template"),
        ("python_version", Json.str "3.11.9 (main)"),
        ("environment", Json.str "development")])⟩ :=
  c3_rootB_defaults envEmpty "3.11.9 (main)" reqRoot rfl rfl rfl

/-- C4: whenever ENVIRONMENT is set to staging, the environment field
of every GET root response is the string "staging", in both variants. -/
theorem c4_staging (env : Env) (v : String) (req : Request)
    (he : env "ENVIRONMENT" = some "staging")
    (hm : req.method = "GET") (hp : req.path = "/") :
    (VariantA.app env req).jsonField "environment" = some (Json.str "staging") ∧
    (VariantB.app v env req).jsonField "environment" = some (Json.str "staging") := by
  constructor <;>
    simp [VariantA.app, VariantB.app, VariantA.hello, VariantB.index,
      Response.jsonField, Json.lookup, lookupField, getenv, he, hm, hp]

/-- Witness for C4 on an environment with only ENVIRONMENT set. -/
theorem c4_staging_witness :
    (VariantA.app envStaging reqRoot).jsonField "environment" = some (Json.str "staging") ∧
    (VariantB.app "3.11.9" envStaging reqRoot).jsonField "environment" = some (Json.str "staging") :=
  c4_staging envStaging "3.11.9" reqRoot rfl rfl rfl

/-- C5: with APP_VERSION set to 2.3.1, variant A's GET root response
has version field "2.3.1"; and variant B's response to any request is
identical under any two environments that agree outside APP_VERSION, so
APP_VERSION has no effect on variant B. -/
theorem c5_app_version (env e1 e2 : Env) (v : String) (req req2 : Request)
    (hv : env "APP_VERSION" = some "2.3.1")
    (hm : req.method = "GET") (hp : req.path = "/")
    (hagree : ∀ k, k ≠ "APP_VERSION" → e1 k = e2 k) :
    (VariantA.app env req).jsonField "version" = some (Json.str "2.3.1") ∧
    VariantB.app v e1 req2 = VariantB.app v e2 req2 := by
  have henv : e1 "ENVIRONMENT" = e2 "ENVIRONMENT" := hagree "ENVIRONMENT" (by decide)
  constructor
  · simp [VariantA.app, VariantA.hello, Response.jsonField, Json.lookup,
      lookupField, getenv, hv, hm, hp]
  · simp [VariantB.app, VariantB.index, getenv, henv]

/-- Witness for C5: concrete environments differing exactly in
APP_VERSION, and a concrete versioned environment for variant A. -/
theorem c5_app_version_witness :
    (VariantA.app envVersioned reqRoot).jsonField "version" = some (Json.str "2.3.1") ∧
    VariantB.app "3.11.9" envEmpty reqRoot = VariantB.app "3.11.9" envVersioned reqRoot :=
  c5_app_version envVersioned envEmpty envVersioned "3.11.9" reqRoot reqRoot rfl rfl rfl
    (by intro k hk; simp [envEmpty, envVersioned, hk])

/-- C6: environment values are read fresh on every request: when two
GET root requests are handled and the environment changes in between,
each response's environment field (and, in variant A, version field)
equals the corresponding variable's value at the time that request was
handled — in particular the second response reflects the changed
environment, whatever the first environment was. -/
theorem c6_fresh_reads (e1 e2 : Env) (v : String) (r1 r2 : Request)
    (hm1 : r1.method = "GET") (hp1 : r1.path = "/")
    (hm2 : r2.method = "GET") (hp2 : r2.path = "/") :
    ((handleTwo VariantA.app e1 e2 r1 r2).1.jsonField "environment"
        = some (Json.str (getenv e1 "ENVIRONMENT" "development")) ∧
      (handleTwo VariantA.app e1 e2 r1 r2).1.jsonField "version"
        = some (Json.str (getenv e1 "APP_VERSION" "1.0.0")) ∧
      (handleTwo VariantA.app e1 e2 r1 r2).2.jsonField "environment"
        = some (Json.str (getenv e2 "ENVIRONMENT" "development")) ∧
      (handleTwo VariantA.app e1 e2 r1 r2).2.jsonField "version"
        = some (Json.str (getenv e2 "APP_VERSION" "1.0.0"))) ∧
    ((handleTwo (VariantB.app v) e1 e2 r1 r2).1.jsonField "environment"
        = some (Json.str (getenv e1 "ENVIRONMENT" "development")) ∧
      (handleTwo (VariantB.app v) e1 e2 r1 r2).2.jsonField "environment"
        = some (Json.str (getenv e2 "ENVIRONMENT" "development"))) := by
  refine ⟨⟨?_, ?_, ?_, ?_⟩, ?_, ?_⟩ <;>
    simp [handleTwo, VariantA.app, VariantB.app, VariantA.hello, VariantB.index,
      Response.jsonField, Json.lookup, lookupField, hm1, hp1, hm2, hp2]

/-- Witness for C6: the environment changes from empty to staging
between the two requests and the second response shows staging. -/
theorem c6_fresh_reads_witness :
    ((handleTwo VariantA.app envEmpty envStaging reqRoot reqRoot).1.jsonField "environment"
        = some (Json.str (getenv envEmpty "ENVIRONMENT" "development")) ∧
      (handleTwo VariantA.app envEmpty envStaging reqRoot reqRoot).1.jsonField "version"
        = some (Json.str (getenv envEmpty "APP_VERSION" "1.0.0")) ∧
      (handleTwo VariantA.app envEmpty envStaging reqRoot reqRoot).2.jsonField "environment"
        = some (Json.str (getenv envStaging "ENVIRONMENT" "development")) ∧
      (handleTwo VariantA.app envEmpty envStaging reqRoot reqRoot).2.jsonField "version"
        = some (Json.str (getenv envStaging "APP_VERSION" "1.0.0"))) ∧
    ((handleTwo (VariantB.app "3.11.9") envEmpty envStaging reqRoot reqRoot).1.jsonField "environment"
        = some (Json.str (getenv envEmpty "ENVIRONMENT" "development")) ∧
      (handleTwo (VariantB.app "3.11.9") envEmpty envStaging reqRoot reqRoot).2.jsonField "environment"
        = some (Json.str (getenv envStaging "ENVIRONMENT" "development"))) :=
  c6_fresh_reads envEmpty envStaging "3.11.9" reqRoot reqRoot rfl rfl rfl rfl

/-- C7: two GET root requests handled in the same environment get
identical responses in either variant, however they differ in query
string, headers or body: the handlers consult no request input beyond
method and path. -/
theorem c7_request_independent (env : Env) (v : String) (r1 r2 : Request)
    (hm1 : r1.method = "GET") (hp1 : r1.path = "/")
    (hm2 : r2.method = "GET") (hp2 : r2.path = "/") :
    VariantA.app env r1 = VariantA.app env r2 ∧
    VariantB.app v env r1 = VariantB.app v env r2 := by
  constructor <;> simp [VariantA.app, VariantB.app, hm1, hp1, hm2, hp2]

/-- Witness for C7: the root request with and without query string,
headers and body. -/
theorem c7_request_independent_witness :
    VariantA.app envEmpty reqRoot = VariantA.app envEmpty ⟨"GET", "/", "x=2", [("H", "1")], "b"⟩ ∧
    VariantB.app "3.11.9" envEmpty reqRoot
      = VariantB.app "3.11.9" envEmpty ⟨"GET", "/", "x=2", [("H", "1")], "b"⟩ :=
  c7_request_independent envEmpty "3.11.9" reqRoot ⟨"GET", "/", "x=2", [("H", "1")], "b"⟩
    rfl rfl rfl rfl

/-- C8: variant A's startup call binds host 0.0.0.0 on port 5000 with
debug explicitly disabled; variant B's binds host 0.0.0.0 on port 8000
passing no debug argument; neither configuration depends on the process
environment, so neither port is configurable from outside the source. -/
theorem c8_run_configs (e1 e2 : Env) :
    VariantA.runConfig e1 = ⟨"0.0.0.0", 5000, some false⟩ ∧
    VariantB.runConfig e2 = ⟨"0.0.0.0", 8000, none⟩ :=
  ⟨rfl, rfl⟩

/-- C9: a request whose path is neither the root nor the health path
gets, in both variants, the framework-default not-found response with
status 404, which is not a 2xx status; the dispatcher is a total
function, so handling such a request cannot crash the process. -/
theorem c9_unknown_path (env : Env) (v : String) (req : Request)
    (h1 : req.path ≠ "/") (h2 : req.path ≠ "/health") :
    VariantA.app env req = ⟨404, Body.notFound⟩ ∧
    VariantB.app v env req = ⟨404, Body.notFound⟩ ∧
    ¬(200 ≤ (VariantA.app env req).status ∧ (VariantA.app env req).status < 300) ∧
    ¬(200 ≤ (VariantB.app v env req).status ∧ (VariantB.app v env req).status < 300) := by
  refine ⟨?_, ?_, ?_, ?_⟩ <;> simp [VariantA.app, VariantB.app, h1, h2]

/-- Witness for C9 at the concrete path /nonexistent. -/
theorem c9_unknown_path_witness :
    VariantA.app envEmpty ⟨"GET", "/nonexistent", "", [], ""⟩ = ⟨404, Body.notFound⟩ ∧
    VariantB.app "3.11.9" envEmpty ⟨"GET", "/nonexistent", "", [], ""⟩ = ⟨404, Body.notFound⟩ ∧
    ¬(200 ≤ (VariantA.app envEmpty ⟨"GET", "/nonexistent", "", [], ""⟩).status ∧
        (VariantA.app envEmpty ⟨"GET", "/nonexistent", "", [], ""⟩).status < 300) ∧
    ¬(200 ≤ (VariantB.app "3.11.9" envEmpty ⟨"GET", "/nonexistent", "", [], ""⟩).status ∧
        (VariantB.app "3.11.9" envEmpty ⟨"GET", "/nonexistent", "", [], ""⟩).status < 300) :=
  c9_unknown_path envEmpty "3.11.9" ⟨"GET", "/nonexistent", "", [], ""⟩
    (by decide) (by decide)

/-- C10: for every environment, interpreter version and GET root
request, both variants answer with status 200 and a JSON object having
exactly the variant's fixed keys in order — message, environment,
version for variant A and message, python_version, environment for
variant B — with every value a JSON string: the default arguments of
the environment lookups make the handlers total, so no key is ever
absent and no application error is raised. -/
theorem c10_shape_invariant (env : Env) (v : String) (req : Request)
    (hm : req.method = "GET") (hp : req.path = "/") :
    (VariantA.app env req).status = 200 ∧
    (VariantB.app v env req).status = 200 ∧
    (∃ jA, (VariantA.app env req).body = Body.json jA ∧
      jA.keys = ["message", "environment", "version"] ∧
      jA.allValuesStr = true) ∧
    (∃ jB, (VariantB.app v env req).body = Body.json jB ∧
      jB.keys = ["message", "python_version", "environment"] ∧
      jB.allValuesStr = true) := by
  refine ⟨?_, ?_, ⟨VariantA.hello env, ?_, ?_, ?_⟩, ⟨VariantB.index v env, ?_, ?_, ?_⟩⟩ <;>
    simp [VariantA.app, VariantB.app, VariantA.hello, VariantB.index,
      Json.keys, Json.allValuesStr, hm, hp]

/-- Witness for C10 on an arbitrary concrete environment. -/
theorem c10_shape_invariant_witness :
    (VariantA.app envStaging reqRoot).status = 200 ∧
    (VariantB.app "3.11.9" envStaging reqRoot).status = 200 ∧
    (∃ jA, (VariantA.app envStaging reqRoot).body = Body.json jA ∧
      jA.keys = ["message", "environment", "version"] ∧
      jA.allValuesStr = true) ∧
    (∃ jB, (VariantB.app "3.11.9" envStaging reqRoot).body = Body.json jB ∧
      jB.keys = ["message", "python_version", "environment"] ∧
      jB.allValuesStr = true) :=
  c10_shape_invariant envStaging "3.11.9" reqRoot rfl rfl
